import Mathlib

/-!
Shallow embedding of the Alertium bot (src/bot.py): the badge snapshot
store, the poll-diff-announce cycle, the Twitch badge fetch and parse,
and the reaction moderation / opt-in role handler, together with proofs
about them.
-/

namespace Alertium

/-- A canonical catalog item as produced by `fetch_global_badges`
(a dict with keys `id`, `name`, `type`, `image_url`). -/
structure Badge where
  id : String
  name : String
  type : String
  image_url : Option String
deriving DecidableEq

/-- The id set of a list of badges, as the Python set comprehension
`{b["id"] for b in badges}`. -/
def idsOf (badges : List Badge) : Finset String :=
  (badges.map Badge.id).toFinset

/-- `save_snapshot(ids)` writes `{"badge_ids": sorted(list(ids))}`;
the written file is modelled by the sorted id list. -/
def save_snapshot (ids : Finset String) : List String :=
  ids.sort (· ≤ ·)

/-- `load_snapshot()` returns the empty set when the snapshot file is
missing or unreadable (modelled by `none`), and otherwise
`set(data.get("badge_ids", []))`, modelled by the stored list's set. -/
def load_snapshot : Option (List String) → Finset String
  | none => ∅
  | some stored => stored.toFinset

/-- The badge-tracking part of `on_ready`: with the loaded snapshot
`loaded`, when it is empty the current catalog is fetched and its id set
becomes the known set, which is saved; no badge announcement is sent on
this path (the startup embed is not a new-item announcement).  Returns
the resulting `known_badge_ids`, the snapshot write performed (if any),
and the list of new-item announcements. -/
def on_ready (loaded : Finset String) (fetched : List Badge) :
    Finset String × Option (List String) × List Badge :=
  if loaded = ∅ then
    (idsOf fetched, some (save_snapshot (idsOf fetched)), [])
  else
    (loaded, none, [])

/-- One `check_for_badges` poll cycle, given the fetch result `badges`
and the in-memory `known_badge_ids`.  Mirrors the source: an empty fetch
returns at once; otherwise `new_badges = current_ids - known_badge_ids`,
and when that is empty the cycle also returns; otherwise every fetched
badge whose id is in `new_badges` is announced (in fetch order), the
known set is REPLACED by `current_ids`, and the snapshot is saved.
Returns the new known set, the announced badges, and the snapshot write
performed (`none` when nothing was persisted). -/
def check_for_badges (badges : List Badge) (known : Finset String) :
    Finset String × List Badge × Option (List String) :=
  if badges.isEmpty then (known, [], none)
  else if idsOf badges \ known = ∅ then (known, [], none)
  else (idsOf badges,
        badges.filter (fun b => decide (b.id ∈ idsOf badges \ known)),
        some (save_snapshot (idsOf badges)))

/-- Run a sequence of poll cycles from a starting known set; returns the
final known set and the per-cycle announcement batches. -/
def runCycles : List (List Badge) → Finset String → Finset String × List (List Badge)
  | [], known => (known, [])
  | f :: rest, known =>
    ((runCycles rest (check_for_badges f known).1).1,
     (check_for_badges f known).2.1 :: (runCycles rest (check_for_badges f known).1).2)

/-- Side condition for the amended monotonicity claim: every fetch in
the sequence is either empty (a skipped cycle) or contains all ids known
at the time it is processed. -/
def covers : List (List Badge) → Finset String → Bool
  | [], _ => true
  | f :: rest, known =>
    (f.isEmpty || decide (known ⊆ idsOf f)) && covers rest (check_for_badges f known).1

/-- A raw badge version object from the Twitch API response; `none`
models an absent key. -/
structure VersionRaw where
  id : Option String
  title : Option String
  description : Option String
  image_url_4x : Option String
  image_url_2x : Option String
  image_url_1x : Option String
deriving DecidableEq

/-- A raw badge set object from the Twitch API response. -/
structure BadgeSetRaw where
  set_id : Option String
  versions : List VersionRaw
deriving DecidableEq

/-- Python truthiness for an optional string: `None` and `""` are falsy. -/
def truthyStr : Option String → Option String
  | none => none
  | some s => if s = "" then none else some s

/-- The parsing loop of `fetch_global_badges` (lines 156-179): id is
`f"{set_id}:{version_id}"` with `"unknown"` for an absent component,
name is `title or description or "Unnamed Badge"` (Python `or`, so empty
strings fall through), image is `image_url_4x or image_url_2x or
image_url_1x`. -/
def parseBadges (sets : List BadgeSetRaw) : List Badge :=
  (sets.map (fun badge_set =>
    badge_set.versions.map (fun version =>
      { id := badge_set.set_id.getD "unknown" ++ ":" ++ version.id.getD "unknown"
        name := (truthyStr version.title).getD
                  ((truthyStr version.description).getD "Unnamed Badge")
        type := "Global"
        image_url :=
          match truthyStr version.image_url_4x with
          | some u => some u
          | none =>
            match truthyStr version.image_url_2x with
            | some u => some u
            | none => version.image_url_1x }))).flatten

/-- Outcome of the HTTP request inside `fetch_global_badges`: either the
transport layer raised (connection error, bad JSON), or a response with
a status code and decoded body arrived. -/
inductive FetchResult where
  | transportError
  | response (status : ℕ) (data : List BadgeSetRaw)

/-- `fetch_global_badges`: a non-200 response returns the empty list;
a transport error is not caught anywhere in the function, so the
exception propagates to the caller (modelled as `Except.error`). -/
def fetch_global_badges : FetchResult → Except Unit (List Badge)
  | .transportError => .error ()
  | .response status data =>
    if status ≠ 200 then .ok []
    else .ok (parseBadges data)

/-- The fixed list of forbidden emoji combinations, in source order. -/
def FORBIDDEN_COMBOS : List (Finset String) :=
  [{"🇳", "I", "G"},
   {"🇳", "I", "G", "🇬", "E", "R"},
   {"🇳", "I", "G", "🇬", "A"},
   {"😡", "🤬"}]

/-- The timeout escalation ladder, in minutes. -/
def OFFENSE_TIMEOUTS : List ℕ := [1, 5, 15, 60]

/-- `OFFENSE_TIMEOUTS[min(count - 1, len(OFFENSE_TIMEOUTS) - 1)]`
(lines 397-398), for the offense count after incrementing. -/
def timeoutMinutes (count : ℕ) : ℕ :=
  OFFENSE_TIMEOUTS.getD (min (count - 1) (OFFENSE_TIMEOUTS.length - 1)) 0

/-- The first forbidden combo (in source order) that is a subset of the
tracked reaction set, as found by the `for combo in FORBIDDEN_COMBOS`
loop with its `combo.issubset` test. -/
def firstMatch (tracked : Finset String) : Option (Finset String) :=
  FORBIDDEN_COMBOS.find? (fun combo => decide (combo ⊆ tracked))

/-- The mutable module-level moderation state: `offense_counts` and
`last_punished_at` keyed by user id (reads use `.get`, so both are
modelled as total maps with defaults `0` and `none`), and
`reactions_on_message` keyed by `(message_id, user_id)` (default: the
empty set).  Timestamps are rationals measured in seconds. -/
structure ModState where
  offense_counts : ℕ → ℕ
  last_punished_at : ℕ → Option ℚ
  reactions_on_message : ℕ × ℕ → Finset String

/-- The fields of a raw reaction-add event that the handler reads. -/
structure Payload where
  message_id : ℕ
  user_id : ℕ
  channel_id : ℕ
  emoji : String

/-- The external environment the handler consults: the bot's own user
id, whether the guild / member / channel / message lookups succeed, the
configured alert role and whether it resolves, the fetched message's
author and embed titles, whether the reacting member already holds the
alert role, whether the `member.timeout` call succeeds, and whether a
moderation log channel is configured and found. -/
structure Env where
  bot_user_id : ℕ
  guild_found : Bool
  member_found : Bool
  alert_role_id : Option ℕ
  role_found : Bool
  channel_found : Bool
  message_found : Bool
  message_author_id : ℕ
  message_embed_titles : List (Option String)
  member_has_role : Bool
  timeout_succeeds : Bool
  log_configured : Bool

/-- Externally visible effects requested by the handler. -/
inductive Effect where
  | timeout (user minutes count : ℕ)
  | timeoutFailed (user minutes count : ℕ)
  | removeUserReactions (message user : ℕ)
  | logTimeout (user minutes count : ℕ)
  | grantRole (user : ℕ)
deriving DecidableEq

/-- The tracked reaction set for the event's key after step 1 adds the
incoming emoji. -/
def trackedSet (p : Payload) (st : ModState) : Finset String :=
  insert p.emoji (st.reactions_on_message (p.message_id, p.user_id))

/-- Step 1 of the handler: record the incoming emoji under the
`(message_id, user_id)` key. -/
def trackStep (p : Payload) (st : ModState) : ModState :=
  { st with reactions_on_message :=
      Function.update st.reactions_on_message (p.message_id, p.user_id) (trackedSet p st) }

/-- The effects of the punishment block: the timeout attempt (which may
fail, caught by `except`), the best-effort removal of all of the user's
reactions on the message (only when the channel resolves), and the
moderation-log entry (only when a log channel is configured). -/
def punishEffects (env : Env) (p : Payload) (count : ℕ) : List Effect :=
  (if env.timeout_succeeds then Effect.timeout p.user_id (timeoutMinutes count) count
   else Effect.timeoutFailed p.user_id (timeoutMinutes count) count) ::
  ((if env.channel_found then [Effect.removeUserReactions p.message_id p.user_id] else []) ++
   (if env.log_configured then [Effect.logTimeout p.user_id (timeoutMinutes count) count] else []))

/-- The punishment block (lines 392-433): increment the user's offense
count, set `last_punished_at[user] = now`, attempt the timeout (state
already committed either way), and finally clear the tracked reaction
set for the key. -/
def punish (env : Env) (p : Payload) (now : ℚ) (st : ModState) : ModState × List Effect :=
  ({ st with
      offense_counts :=
        Function.update st.offense_counts p.user_id (st.offense_counts p.user_id + 1)
      last_punished_at :=
        Function.update st.last_punished_at p.user_id (some now)
      reactions_on_message :=
        Function.update st.reactions_on_message (p.message_id, p.user_id) ∅ },
   punishEffects env p (st.offense_counts p.user_id + 1))

/-- Outcome of the tracking+moderation part of the handler: `halted`
when a `return` fires before the opt-in section, `proceed` otherwise. -/
inductive ModOutcome where
  | halted (st : ModState)
  | proceed (st : ModState) (effs : List Effect)

/-- Sections 1 and 2 of `on_raw_reaction_add`: ignore the bot's own
reactions and unknown guilds, record the emoji, then scan the forbidden
combos; on the first match, a failed member lookup returns, an active
cooldown (`now - last < 10` seconds, keyed by user only) suppresses the
punishment and breaks, and otherwise the punishment block runs and
breaks. -/
def moderationStep (env : Env) (p : Payload) (now : ℚ) (st : ModState) : ModOutcome :=
  if p.user_id = env.bot_user_id then .halted st
  else if env.guild_found = false then .halted st
  else
    match firstMatch (trackedSet p st) with
    | none => .proceed (trackStep p st) []
    | some _ =>
      if env.member_found = false then .halted (trackStep p st)
      else
        match (trackStep p st).last_punished_at p.user_id with
        | some last =>
          if now - last < 10 then .proceed (trackStep p st) []
          else .proceed (punish env p now (trackStep p st)).1
                        (punish env p now (trackStep p st)).2
        | none => .proceed (punish env p now (trackStep p st)).1
                           (punish env p now (trackStep p st)).2

/-- Does `small` start the character list `big`? -/
def startsWithChars : List Char → List Char → Bool
  | [], _ => true
  | _ :: _, [] => false
  | c :: cs, d :: ds => c == d && startsWithChars cs ds

/-- Python's substring test `pat in hay` on character lists. -/
def containsChars (pat : List Char) : List Char → Bool
  | [] => startsWithChars pat []
  | d :: ds => startsWithChars pat (d :: ds) || containsChars pat ds

/-- Python's substring test `pat in hay` on strings. -/
def strContains (hay pat : String) : Bool :=
  containsChars pat.data hay.data

/-- The title guard of the opt-in section: when the fetched message has
embeds, the first embed's title (`or ""`) must contain the opt-in
marker; a message without embeds skips the check entirely. -/
def optInTitleOk (env : Env) : Bool :=
  match env.message_embed_titles with
  | [] => true
  | t :: _ => strContains (t.getD "") "Alertium Notifications Opt-in"

/-- Section 3 of `on_raw_reaction_add` (the opt-in alert role), as the
list of effects it produces; every early `return` yields no effect, and
the final step grants the role only when the member does not already
hold it.  The moderation dictionaries are never touched here. -/
def optInGrant (env : Env) (p : Payload) : List Effect :=
  if p.emoji ≠ "✅" then []
  else if env.alert_role_id = none then []
  else if env.role_found = false then []
  else if env.member_found = false then []
  else if env.channel_found = false then []
  else if env.message_found = false then []
  else if env.message_author_id ≠ env.bot_user_id then []
  else if optInTitleOk env = false then []
  else if env.member_has_role then []
  else [Effect.grantRole p.user_id]

/-- The full `on_raw_reaction_add` handler: the moderation part either
returns early (no further effects) or falls through to the opt-in
section, whose effects are appended. -/
def on_raw_reaction_add (env : Env) (p : Payload) (now : ℚ) (st : ModState) :
    ModState × List Effect :=
  match moderationStep env p now st with
  | .halted st1 => (st1, [])
  | .proceed st1 effs => (st1, effs ++ optInGrant env p)

/-- A concrete badge used in counterexamples and witnesses. -/
def badge1 : Badge := { id := "a:1", name := "A", type := "Global", image_url := none }

/-- A second concrete badge used in counterexamples and witnesses. -/
def badge2 : Badge := { id := "b:1", name := "B", type := "Global", image_url := none }

/-- A concrete moderation state: user 1 already has 😡 tracked on
message 5 and a clean record otherwise. -/
def st0 : ModState :=
  { offense_counts := fun _ => 0
    last_punished_at := fun _ => none
    reactions_on_message := fun k => if k = (5, 1) then {"😡"} else ∅ }

/-- A moderation state with everything empty. -/
def stEmpty : ModState :=
  { offense_counts := fun _ => 0
    last_punished_at := fun _ => none
    reactions_on_message := fun _ => ∅ }

/-- A concrete state for the cooldown witness: user 1 was punished at
time 0 (offense count 1) and has 😡 tracked on message 7. -/
def st5 : ModState :=
  { offense_counts := fun u => if u = 1 then 1 else 0
    last_punished_at := fun u => if u = 1 then some 0 else none
    reactions_on_message := fun k => if k = (7, 1) then {"😡"} else ∅ }

/-- A concrete environment where every lookup succeeds, the fetched
message is an embed-less bot message, and the timeout call succeeds. -/
def env0 : Env :=
  { bot_user_id := 0
    guild_found := true
    member_found := true
    alert_role_id := some 9
    role_found := true
    channel_found := true
    message_found := true
    message_author_id := 0
    message_embed_titles := []
    member_has_role := false
    timeout_succeeds := true
    log_configured := true }

/-- Like `env0` but the `member.timeout` call fails. -/
def envFail : Env :=
  { env0 with timeout_succeeds := false }

/-- Like `env0` but the fetched message carries the opt-in embed. -/
def env9 : Env :=
  { env0 with message_embed_titles := [some "Alertium Notifications Opt-in"] }

/-- User 1 reacts with 🤬 on message 5. -/
def p0 : Payload := { message_id := 5, user_id := 1, channel_id := 3, emoji := "🤬" }

/-- User 1 reacts with 🤬 on message 7. -/
def p5 : Payload := { message_id := 7, user_id := 1, channel_id := 3, emoji := "🤬" }

/-- User 1 reacts with ❌ on message 5. -/
def p9 : Payload := { message_id := 5, user_id := 1, channel_id := 3, emoji := "❌" }

/-- User 1 reacts with ✅ on message 5. -/
def pOpt : Payload := { message_id := 5, user_id := 1, channel_id := 3, emoji := "✅" }

lemma check_known_sub (badges : List Badge) (known : Finset String)
    (h : badges.isEmpty = true ∨ known ⊆ idsOf badges) :
    known ⊆ (check_for_badges badges known).1 := by
  unfold check_for_badges
  split
  · exact fun s hs => hs
  · split
    · exact fun s hs => hs
    · rcases h with h | h
      · simp_all
      · exact h

lemma check_announced_sub (badges : List Badge) (known : Finset String) :
    idsOf (check_for_badges badges known).2.1 ⊆ (check_for_badges badges known).1 := by
  unfold check_for_badges
  split
  · simp [idsOf]
  · split
    · simp [idsOf]
    · intro s hs
      simp only [idsOf, List.mem_toFinset, List.mem_map] at hs ⊢
      obtain ⟨b, hb, rfl⟩ := hs
      exact ⟨b, (List.mem_filter.mp hb).1, rfl⟩

lemma check_announced_not_known (badges : List Badge) (known : Finset String) :
    ∀ s ∈ idsOf (check_for_badges badges known).2.1, s ∉ known := by
  unfold check_for_badges
  split
  · simp [idsOf]
  · split
    · simp [idsOf]
    · intro s hs
      simp only [idsOf, List.mem_toFinset, List.mem_map] at hs
      obtain ⟨b, hb, rfl⟩ := hs
      have h2 := of_decide_eq_true (List.mem_filter.mp hb).2
      exact (Finset.mem_sdiff.mp h2).2

lemma covers_cons (f : List Badge) (rest : List (List Badge)) (known : Finset String)
    (h : covers (f :: rest) known = true) :
    (f.isEmpty = true ∨ known ⊆ idsOf f) ∧
      covers rest (check_for_badges f known).1 = true := by
  simp only [covers, Bool.and_eq_true, Bool.or_eq_true, decide_eq_true_eq] at h
  exact h

lemma runCycles_not_announced (fetches : List (List Badge)) :
    ∀ known : Finset String, covers fetches known = true →
      ∀ s ∈ known, ∀ batch ∈ (runCycles fetches known).2, s ∉ idsOf batch := by
  induction fetches with
  | nil =>
    intro known _ s _ batch hb
    simp [runCycles] at hb
  | cons f rest ih =>
    intro known hc s hs batch hb
    obtain ⟨h1, h2⟩ := covers_cons f rest known hc
    simp only [runCycles, List.mem_cons] at hb
    rcases hb with rfl | hb
    · intro hmem
      exact check_announced_not_known f known s hmem hs
    · exact ih _ h2 s (check_known_sub f known h1 hs) batch hb

/-- C1 (amended): provided every non-empty fetch in the sequence
contains all ids known when it is processed, the known (seen) set grows
monotonically across poll cycles, and no id ever appears in two distinct
announcement batches.  (Unconditionally this is false, because
`check_for_badges` REPLACES `known_badge_ids` by the current catalog's
ids: see the counterexample.) -/
theorem announced_once_of_covers (fetches : List (List Badge)) (known : Finset String)
    (h : covers fetches known = true) :
    known ⊆ (runCycles fetches known).1 ∧
    (runCycles fetches known).2.Pairwise (fun a b => ∀ s ∈ idsOf a, s ∉ idsOf b) := by
  induction fetches generalizing known with
  | nil => exact ⟨fun s hs => hs, by simp [runCycles]⟩
  | cons f rest ih =>
    obtain ⟨h1, h2⟩ := covers_cons f rest known h
    obtain ⟨ihsub, ihpw⟩ := ih (check_for_badges f known).1 h2
    simp only [runCycles]
    constructor
    · exact fun s hs => ihsub (check_known_sub f known h1 hs)
    · refine List.Pairwise.cons ?_ ihpw
      intro batch hb s hsa
      exact runCycles_not_announced rest _ h2 s (check_announced_sub f known hsa) batch hb

/-- Witness for the amended C1 at a concrete fetch sequence. -/
theorem announced_once_of_covers_witness :
    covers [[badge1], [badge1, badge2]] ∅ = true ∧
    ((∅ : Finset String) ⊆ (runCycles [[badge1], [badge1, badge2]] ∅).1 ∧
     (runCycles [[badge1], [badge1, badge2]] ∅).2.Pairwise
       (fun a b => ∀ s ∈ idsOf a, s ∉ idsOf b)) :=
  ⟨by decide, announced_once_of_covers [[badge1], [badge1, badge2]] ∅ (by decide)⟩

/-- C1 counterexample: starting from an empty known set (reachable when
the persisted snapshot is empty and the bootstrap fetch fails), the
fetch sequence `[[badge1], [badge2], [badge1]]` announces `badge1` in
cycles 1 and 3, and the id `"a:1"`, in the seen set after cycle 1, has
been removed from it after cycle 2 — refuting both the monotone-growth
part and the never-re-announced part of the claim. -/
theorem seen_removal_and_reannounce_cex :
    (runCycles [[badge1], [badge2], [badge1]] ∅).2 = [[badge1], [badge2], [badge1]] ∧
    "a:1" ∈ (check_for_badges [badge1] ∅).1 ∧
    "a:1" ∉ (runCycles [[badge1], [badge2]] ∅).1 := by decide

/-- C2: on a first run with an empty loaded snapshot, `on_ready` makes
no new-item announcement, commits exactly the ids of the whole fetched
catalog (every fetched badge's id included) to the known set, and saves
that set — for every catalog, whatever its size. -/
theorem first_run_bootstrap_silent (fetched : List Badge) :
    (on_ready ∅ fetched).2.2 = [] ∧
    (on_ready ∅ fetched).1 = idsOf fetched ∧
    (∀ b ∈ fetched, b.id ∈ (on_ready ∅ fetched).1) ∧
    (on_ready ∅ fetched).2.1 = some (save_snapshot (idsOf fetched)) := by
  refine ⟨rfl, rfl, ?_, rfl⟩
  intro b hb
  show b.id ∈ (fetched.map Badge.id).toFinset
  rw [List.mem_toFinset, List.mem_map]
  exact ⟨b, hb, rfl⟩

/-- C3: a poll cycle whose fetch yields the empty list is skipped
entirely: the known set is unchanged, nothing is announced, and nothing
is persisted. -/
theorem empty_fetch_skips_cycle (known : Finset String) :
    check_for_badges [] known = (known, [], none) := rfl

/-- C7: saving any set of ids with `save_snapshot` and loading the
written file back with `load_snapshot` returns a set equal to the one
written — for every set, including the empty set, singletons and sets of
any larger size. -/
theorem snapshot_roundtrip (ids : Finset String) :
    load_snapshot (some (save_snapshot ids)) = ids := by
  simp [load_snapshot, save_snapshot, Finset.sort_toFinset]

/-- C8 (amended): a non-success (non-200) response makes
`fetch_global_badges` return the empty list; a transport error, however,
is not caught by the function and propagates to the caller (see the
counterexample). -/
theorem fetch_non_success_empty (status : ℕ) (data : List BadgeSetRaw)
    (h : status ≠ 200) :
    fetch_global_badges (.response status data) = .ok [] := by
  simp [fetch_global_badges, h]

/-- Witness for the amended C8 at a concrete failing status. -/
theorem fetch_non_success_empty_witness :
    (500 ≠ 200) ∧ fetch_global_badges (.response 500 []) = .ok [] :=
  ⟨by decide, fetch_non_success_empty 500 [] (by decide)⟩

/-- C8 counterexample: on a transport error the fetch does not return
the empty sequence — the exception propagates to the caller. -/
theorem fetch_transport_error_throws_cex :
    fetch_global_badges FetchResult.transportError = Except.error () ∧
    fetch_global_badges FetchResult.transportError ≠ Except.ok [] :=
  ⟨rfl, fun h => Except.noConfusion h⟩

lemma optInGrant_mem (env : Env) (p : Payload) :
    ∀ e ∈ optInGrant env p, e = Effect.grantRole p.user_id := by
  intro e he
  unfold optInGrant at he
  repeat' split at he
  all_goals simp_all

lemma punishEffects_timeout (env : Env) (p : Payload) (k u m c : ℕ)
    (h : Effect.timeout u m c ∈ punishEffects env p k ∨
         Effect.timeoutFailed u m c ∈ punishEffects env p k) :
    m = timeoutMinutes k ∧ c = k := by
  unfold punishEffects at h
  rcases h with h | h <;>
  · simp only [List.mem_cons, List.mem_append] at h
    rcases h with h | h | h <;> split at h <;> simp_all

lemma moderationStep_proceed_effs (env : Env) (p : Payload) (now : ℚ) (st : ModState)
    (st1 : ModState) (effs : List Effect)
    (h : moderationStep env p now st = .proceed st1 effs) :
    effs = [] ∨ effs = (punish env p now (trackStep p st)).2 := by
  unfold moderationStep at h
  repeat' split at h
  all_goals first
    | (left; cases h; rfl)
    | (right; cases h; rfl)
    | cases h

lemma on_raw_halted (env : Env) (p : Payload) (now : ℚ) (st : ModState)
    (st1 : ModState) (h : moderationStep env p now st = .halted st1) :
    on_raw_reaction_add env p now st = (st1, []) := by
  unfold on_raw_reaction_add
  rw [h]

lemma on_raw_proceed (env : Env) (p : Payload) (now : ℚ) (st : ModState)
    (st1 : ModState) (effs : List Effect)
    (h : moderationStep env p now st = .proceed st1 effs) :
    on_raw_reaction_add env p now st = (st1, effs ++ optInGrant env p) := by
  unfold on_raw_reaction_add
  rw [h]

lemma handler_timeout_minutes (env : Env) (p : Payload) (now : ℚ) (st : ModState)
    (u m c : ℕ)
    (h : Effect.timeout u m c ∈ (on_raw_reaction_add env p now st).2 ∨
         Effect.timeoutFailed u m c ∈ (on_raw_reaction_add env p now st).2) :
    m = timeoutMinutes c := by
  cases hms : moderationStep env p now st with
  | halted st1 =>
    simp only [on_raw_halted env p now st st1 hms] at h
    rcases h with h | h <;> simp at h
  | proceed st1 effs =>
    simp only [on_raw_proceed env p now st st1 effs hms] at h
    rcases moderationStep_proceed_effs env p now st st1 effs hms with rfl | rfl
    · rcases h with h | h <;>
      · rw [List.nil_append] at h
        exact absurd (optInGrant_mem env p _ h) (by simp)
    · rcases h with h | h <;> rw [List.mem_append] at h <;> rcases h with h | h
      · obtain ⟨hm2, hc2⟩ := punishEffects_timeout env p _ u m c (Or.inl h)
        exact hm2.trans (congrArg timeoutMinutes hc2.symm)
      · exact absurd (optInGrant_mem env p _ h) (by simp)
      · obtain ⟨hm2, hc2⟩ := punishEffects_timeout env p _ u m c (Or.inr h)
        exact hm2.trans (congrArg timeoutMinutes hc2.symm)
      · exact absurd (optInGrant_mem env p _ h) (by simp)

lemma moderationStep_proceeds (env : Env) (p : Payload) (now : ℚ) (st : ModState)
    (hbot : p.user_id ≠ env.bot_user_id) (hg : env.guild_found = true)
    (hm : env.member_found = true) :
    ∃ st1 effs, moderationStep env p now st = .proceed st1 effs := by
  cases hms : moderationStep env p now st with
  | proceed st1 effs => exact ⟨st1, effs, rfl⟩
  | halted st1 =>
    exfalso
    rcases hfm : firstMatch (trackedSet p st) with _ | combo
    · simp [moderationStep, hbot, hg, hfm] at hms
    · rcases hl : (trackStep p st).last_punished_at p.user_id with _ | last
      · simp [moderationStep, hbot, hg, hm, hfm, hl] at hms
      · by_cases hlt : now - last < 10
        · simp [moderationStep, hbot, hg, hm, hfm, hl, hlt] at hms
        · simp [moderationStep, hbot, hg, hm, hfm, hl, hlt] at hms

/-- C4: whenever the handler emits a timeout attempt (successful or not)
for offense count `c`, the duration is
`OFFENSE_TIMEOUTS[min(c - 1, len(OFFENSE_TIMEOUTS) - 1)]` over the
ladder `[1, 5, 15, 60]`; the clamped index is always in bounds, and for
every count of 5 or more the duration is capped at 60 minutes. -/
theorem timeout_ladder_clamped (env : Env) (p : Payload) (now : ℚ) (st : ModState)
    (u m c : ℕ)
    (h : Effect.timeout u m c ∈ (on_raw_reaction_add env p now st).2 ∨
         Effect.timeoutFailed u m c ∈ (on_raw_reaction_add env p now st).2) :
    m = OFFENSE_TIMEOUTS.getD (min (c - 1) (OFFENSE_TIMEOUTS.length - 1)) 0 ∧
    min (c - 1) (OFFENSE_TIMEOUTS.length - 1) < OFFENSE_TIMEOUTS.length ∧
    (5 ≤ c → m = 60) := by
  have hmc := handler_timeout_minutes env p now st u m c h
  have hlen : OFFENSE_TIMEOUTS.length = 4 := rfl
  refine ⟨hmc, ?_, ?_⟩
  · rw [hlen]
    omega
  · intro hc
    rw [hmc]
    unfold timeoutMinutes
    rw [hlen]
    have hmin : min (c - 1) (4 - 1) = 3 := by omega
    rw [hmin]
    rfl

/-- Witness for C4 at a concrete punishment. -/
theorem timeout_ladder_clamped_witness :
    (Effect.timeout 1 1 1 ∈ (on_raw_reaction_add env0 p0 0 st0).2 ∨
     Effect.timeoutFailed 1 1 1 ∈ (on_raw_reaction_add env0 p0 0 st0).2) ∧
    (1 = OFFENSE_TIMEOUTS.getD (min (1 - 1) (OFFENSE_TIMEOUTS.length - 1)) 0 ∧
     min (1 - 1) (OFFENSE_TIMEOUTS.length - 1) < OFFENSE_TIMEOUTS.length ∧
     (5 ≤ 1 → 1 = 60)) :=
  ⟨Or.inl (by decide),
   timeout_ladder_clamped env0 p0 0 st0 1 1 1 (Or.inl (by decide))⟩

/-- C5: when a forbidden-combo match occurs for a user whose
`last_punished_at` is less than 10 seconds old, the punishment is
suppressed: offense counts and cooldown timestamps are unchanged, the
only state change is the recording of the new emoji, and no timeout
attempt is emitted.  The cooldown key is the user id alone — the
message id of the triggering event is arbitrary here, so a user punished
on one message is in cooldown on every message. -/
theorem cooldown_suppresses_punishment (env : Env) (p : Payload) (now : ℚ)
    (st : ModState) (combo : Finset String) (last : ℚ)
    (hbot : p.user_id ≠ env.bot_user_id)
    (hg : env.guild_found = true)
    (hcombo : firstMatch (trackedSet p st) = some combo)
    (hm : env.member_found = true)
    (hlast : st.last_punished_at p.user_id = some last)
    (hcd : now - last < 10) :
    (on_raw_reaction_add env p now st).1.offense_counts = st.offense_counts ∧
    (on_raw_reaction_add env p now st).1.last_punished_at = st.last_punished_at ∧
    (on_raw_reaction_add env p now st).1.reactions_on_message =
      Function.update st.reactions_on_message (p.message_id, p.user_id) (trackedSet p st) ∧
    ∀ u m c : ℕ,
      Effect.timeout u m c ∉ (on_raw_reaction_add env p now st).2 ∧
      Effect.timeoutFailed u m c ∉ (on_raw_reaction_add env p now st).2 := by
  have hstep : moderationStep env p now st = .proceed (trackStep p st) [] := by
    simp [moderationStep, trackStep, hbot, hg, hcombo, hm, hlast, hcd]
  simp only [on_raw_reaction_add, hstep, List.nil_append]
  refine ⟨rfl, rfl, rfl, ?_⟩
  intro u m c
  constructor <;> intro hmem <;>
    exact absurd (optInGrant_mem env p _ hmem) (by simp)

/-- Witness for C5: user 1 was punished at time 0 (recorded from some
earlier message) and completes a combo on a DIFFERENT message (7) at
time 5 — inside the 10-second window — so nothing is punished. -/
theorem cooldown_suppresses_punishment_witness :
    firstMatch (trackedSet p5 st5) = some {"😡", "🤬"} ∧
    ((on_raw_reaction_add env0 p5 5 st5).1.offense_counts = st5.offense_counts ∧
     (on_raw_reaction_add env0 p5 5 st5).1.last_punished_at = st5.last_punished_at ∧
     (on_raw_reaction_add env0 p5 5 st5).1.reactions_on_message =
       Function.update st5.reactions_on_message (7, 1) (trackedSet p5 st5) ∧
     ∀ u m c : ℕ,
       Effect.timeout u m c ∉ (on_raw_reaction_add env0 p5 5 st5).2 ∧
       Effect.timeoutFailed u m c ∉ (on_raw_reaction_add env0 p5 5 st5).2) :=
  ⟨by decide,
   cooldown_suppresses_punishment env0 p5 5 st5 {"😡", "🤬"} 0
     (by decide) rfl (by decide) rfl rfl (by norm_num)⟩

/-- C6: when a punishment fires, the user's offense count is
incremented, `last_punished_at` is set to `now`, and the tracked
reaction set for the `(message, user)` key is cleared — and the
resulting state is identical whether or not the `member.timeout` call
succeeds (its failure is caught; nothing is rolled back). -/
theorem punish_state_committed (env : Env) (p : Payload) (now : ℚ)
    (st : ModState) (combo : Finset String)
    (hbot : p.user_id ≠ env.bot_user_id)
    (hg : env.guild_found = true)
    (hcombo : firstMatch (trackedSet p st) = some combo)
    (hm : env.member_found = true)
    (hcd : ∀ last : ℚ, st.last_punished_at p.user_id = some last → 10 ≤ now - last) :
    (on_raw_reaction_add env p now st).1.offense_counts p.user_id
      = st.offense_counts p.user_id + 1 ∧
    (on_raw_reaction_add env p now st).1.last_punished_at p.user_id = some now ∧
    (on_raw_reaction_add env p now st).1.reactions_on_message (p.message_id, p.user_id)
      = ∅ ∧
    (on_raw_reaction_add env p now st).1 =
      (on_raw_reaction_add { env with timeout_succeeds := !env.timeout_succeeds }
        p now st).1 := by
  have hstep : ∀ env' : Env, p.user_id ≠ env'.bot_user_id → env'.guild_found = true →
      env'.member_found = true →
      moderationStep env' p now st =
        .proceed (punish env' p now (trackStep p st)).1
                 (punish env' p now (trackStep p st)).2 := by
    intro env' hbot' hg' hm'
    rcases hl : st.last_punished_at p.user_id with _ | last
    · simp [moderationStep, trackStep, hbot', hg', hcombo, hm', hl]
    · have hnlt : ¬ (now - last < 10) := not_lt.mpr (hcd last hl)
      simp [moderationStep, trackStep, hbot', hg', hcombo, hm', hl, hnlt]
  have h1 := hstep env hbot hg hm
  have h2 := hstep { env with timeout_succeeds := !env.timeout_succeeds } hbot hg hm
  simp only [on_raw_reaction_add, h1, h2]
  refine ⟨?_, ?_, ?_, rfl⟩
  · simp [punish, trackStep, Function.update_same]
  · simp [punish, trackStep, Function.update_same]
  · simp [punish, trackStep, Function.update_same]

/-- Witness for C6 with a FAILING timeout call: the offense count,
cooldown timestamp and cleared reaction set are committed anyway. -/
theorem punish_state_committed_witness :
    envFail.timeout_succeeds = false ∧
    ((on_raw_reaction_add envFail p0 0 st0).1.offense_counts 1
       = st0.offense_counts 1 + 1 ∧
     (on_raw_reaction_add envFail p0 0 st0).1.last_punished_at 1 = some 0 ∧
     (on_raw_reaction_add envFail p0 0 st0).1.reactions_on_message (5, 1) = ∅ ∧
     (on_raw_reaction_add envFail p0 0 st0).1 =
       (on_raw_reaction_add { envFail with timeout_succeeds := !envFail.timeout_succeeds }
         p0 0 st0).1) :=
  ⟨rfl,
   punish_state_committed envFail p0 0 st0 {"😡", "🤬"}
     (by decide) rfl (by decide) rfl (fun last h => Option.noConfusion h)⟩

/-- C9 counterexample: user 1 reacts with ❌ on the designated opt-in
message (a bot-authored message whose embed title is the opt-in marker,
with every lookup succeeding); the handler produces NO effect at all —
in particular the reaction is not removed, contradicting the claimed
reaction scrubbing. -/
theorem other_emoji_not_removed_cex :
    (on_raw_reaction_add env9 p9 0 stEmpty).2 = [] := by decide

/-- C9 (amended): a reaction-add with an emoji other than ✅ on the
opt-in message (or any message) is simply ignored whenever it completes
no forbidden combo: no reaction removal and no role change occurs —
the handler never scrubs non-✅ reactions. -/
theorem other_emoji_ignored (env : Env) (p : Payload) (now : ℚ) (st : ModState)
    (hbot : p.user_id ≠ env.bot_user_id)
    (hg : env.guild_found = true)
    (hemoji : p.emoji ≠ "✅")
    (hcombo : firstMatch (trackedSet p st) = none) :
    (on_raw_reaction_add env p now st).2 = [] := by
  have hstep : moderationStep env p now st = .proceed (trackStep p st) [] := by
    simp [moderationStep, trackStep, hbot, hg, hcombo]
  simp [on_raw_reaction_add, hstep, optInGrant, hemoji]

/-- Witness for the amended C9. -/
theorem other_emoji_ignored_witness :
    p9.emoji ≠ "✅" ∧ (on_raw_reaction_add env9 p9 1 stEmpty).2 = [] :=
  ⟨by decide,
   other_emoji_ignored env9 p9 1 stEmpty (by decide) rfl (by decide) (by decide)⟩

/-- C10: a ✅ reaction-add on a bot-authored message WITHOUT embeds
grants the alert role (when the role is configured and resolvable and
the member does not already hold it): the opt-in title check is only
performed when the message has at least one embed, so an embed-less bot
message is treated as an opt-in message. -/
theorem embedless_optin_grants_role (env : Env) (p : Payload) (now : ℚ) (st : ModState)
    (hbot : p.user_id ≠ env.bot_user_id)
    (hg : env.guild_found = true)
    (hemoji : p.emoji = "✅")
    (hrid : env.alert_role_id ≠ none)
    (hrole : env.role_found = true)
    (hm : env.member_found = true)
    (hch : env.channel_found = true)
    (hmsg : env.message_found = true)
    (hauthor : env.message_author_id = env.bot_user_id)
    (hembeds : env.message_embed_titles = [])
    (hheld : env.member_has_role = false) :
    Effect.grantRole p.user_id ∈ (on_raw_reaction_add env p now st).2 := by
  have hgrant : optInGrant env p = [Effect.grantRole p.user_id] := by
    simp [optInGrant, optInTitleOk, hemoji, hrid, hrole, hm, hch, hmsg, hauthor,
      hembeds, hheld]
  obtain ⟨st1, effs, hms⟩ := moderationStep_proceeds env p now st hbot hg hm
  simp [on_raw_reaction_add, hms, hgrant]

/-- Witness for C10: ✅ on an embed-less bot message grants the role. -/
theorem embedless_optin_grants_role_witness :
    env0.message_embed_titles = [] ∧
    Effect.grantRole 1 ∈ (on_raw_reaction_add env0 pOpt 0 stEmpty).2 :=
  ⟨rfl,
   embedless_optin_grants_role env0 pOpt 0 stEmpty (by decide) rfl rfl (by decide)
     rfl rfl rfl rfl rfl rfl rfl⟩

end Alertium
